import Mathlib

/-!
# Verification of the `truonghm/ml2-project` report notebook

The repository consists of a single Jupyter notebook, `src/report/report.ipynb`,
a write-up of a BERT fine-tuning NER experiment.  Its only executable content is
one configuration cell; the rest is markdown narrative containing metric tables,
an NER label list and image references.  This file gives a shallow embedding of
that content: the metric tables and label list as Lean data, and the
configuration cell as a straight-line statement list interpreted over an
explicit kernel state.
-/

namespace MLReport

/-! ## Metric formulas (from the Metrics section, cell-3)

The report states the F1 formula `F1 = 2 * (Precision * Recall) / (Precision + Recall)`.
All table values are carried as exact rationals. -/

/-- The F1 harmonic-mean formula stated in the report's Metrics section:
`F1 = 2 × (P × R) / (P + R)`. -/
def f1Formula (p r : ℚ) : ℚ := 2 * (p * r) / (p + r)

/-- Floor of a rational, computed as integer division of numerator by
denominator (the denominator of a `Rat` is positive, so this is `⌊q⌋`). -/
def ratFloor (q : ℚ) : ℤ := q.num / (q.den : ℤ)

/-- Round a rational to two decimal places, halves rounding up:
`roundTo2 q = ⌊100 q + 1/2⌋ / 100`.  This is the rounding the report's tables
display (two decimals). -/
def roundTo2 (q : ℚ) : ℚ := ((ratFloor (q * 100 + 1/2) : ℚ)) / 100

/-! ## The general results table (`tbl-general-results`, cell-7)

| Metric    | Value  |
|-----------|--------|
| Accuracy  | 96.18% |
| Precision | 78.03% |
| Recall    | 82.56% |
| F1        | 80.23% |
-/

/-- Accuracy from the general results table: 96.18 (percent). -/
def generalAccuracy : ℚ := 9618 / 100

/-- Precision from the general results table: 78.03 (percent). -/
def generalPrecision : ℚ := 7803 / 100

/-- Recall from the general results table: 82.56 (percent). -/
def generalRecall : ℚ := 8256 / 100

/-- F1 from the general results table: 80.23 (percent). -/
def generalF1 : ℚ := 8023 / 100

/-! ## The detailed results table (`tbl-detail-results`, cell-7)

| Class | Precision | Recall | F1-Score | Support |
|-------|-----------|--------|----------|---------|
| LOC   | 0.85      | 0.91   | 0.88     | 1837    |
| MISC  | 0.87      | 0.83   | 0.85     | 922     |
| ORG   | 0.59      | 0.67   | 0.63     | 1341    |
| PER   | 0.82      | 0.85   | 0.83     | 1846    |
-/

/-- One row of the detailed per-class metrics table.  The `Recall` column is
named `recallVal` because `recall` is a reserved command name in Lean. -/
structure DetailRow where
  className : String
  precision : ℚ
  recallVal : ℚ
  f1 : ℚ
  support : ℕ
deriving DecidableEq, Repr

/-- The LOC row of `tbl-detail-results`. -/
def locRow : DetailRow := ⟨"LOC", 85/100, 91/100, 88/100, 1837⟩

/-- The MISC row of `tbl-detail-results`. -/
def miscRow : DetailRow := ⟨"MISC", 87/100, 83/100, 85/100, 922⟩

/-- The ORG row of `tbl-detail-results`. -/
def orgRow : DetailRow := ⟨"ORG", 59/100, 67/100, 63/100, 1341⟩

/-- The PER row of `tbl-detail-results`. -/
def perRow : DetailRow := ⟨"PER", 82/100, 85/100, 83/100, 1846⟩

/-- The detailed per-class metrics table, in the order printed in the report. -/
def detailRows : List DetailRow := [locRow, miscRow, orgRow, perRow]

/-! ## The NER label list (cell-3, Dataset section) -/

/-- The nine NER labels enumerated in the Dataset section, in the order the
report lists them. -/
def nerLabels : List String :=
  ["B-MISC", "I-MISC", "B-PER", "I-PER", "O", "B-LOC", "I-LOC", "B-ORG", "I-ORG"]

/-- The four entity categories of the dataset (person, location, organization,
miscellaneous), as they appear in the labels. -/
def entityCategories : List String := ["PER", "LOC", "ORG", "MISC"]

/-- A label is a well-formed BIO label when it is exactly `O` or a `B-`/`I-`
prefix followed by one of the four entity categories. -/
def isBioLabel (l : String) : Bool :=
  l == "O" || entityCategories.any (fun c => l == "B-" ++ c || l == "I-" ++ c)

/-! ## Image references (cell-3)

The document contains exactly two image references:
`![...](images/2023-09-18-23-06-37.png)` for fig-networktransfer and
`![...](images/2023-09-19-00-30-13.png)` for fig-bert. -/

/-- The link targets of every image reference appearing in the notebook's
markdown, in document order. -/
def imageRefTargets : List String :=
  ["images/2023-09-18-23-06-37.png", "images/2023-09-19-00-30-13.png"]

/-- `hasPrefixStr pre s` holds when the characters of `pre` are an initial
segment of the characters of `s`. -/
def hasPrefixStr (pre s : String) : Bool :=
  pre.data.isPrefixOf s.data

/-! ## The configuration cell (cell-2)

The notebook's only code cell is, in source order: the magic
`%config InlineBackend.figure_formats = ['svg']`; five imports — `pandas`
as `pd`, `numpy` as `np`, `matplotlib.pyplot` as `plt`, `imread` from
`matplotlib.image`, and `seaborn` as `sns`; the assignment
`plt.rcParams['font.family'] = 'Latin Modern Roman'`; the constant binding
`DPI = 800`; and the magic `%matplotlib inline`.

We embed it as a list of simple (non-compound) Python/IPython statements and
interpret it over an explicit kernel state.  The statement grammar also has
IO-performing forms (`print`, file read/write) that the cell never uses, so
that frame and classification theorems about the cell are not vacuous; the
grammar has no compound statement because the cell contains none. -/

/-- A value bound in the interactive namespace. -/
inductive PyValue where
  /-- An integer object, e.g. the `800` bound to `DPI`. -/
  | intVal (n : ℤ)
  /-- A string object, e.g. file contents read into a variable. -/
  | strVal (s : String)
  /-- An imported module or module member, identified by its dotted name. -/
  | moduleVal (name : String)
deriving DecidableEq, Repr

/-- Runtime errors a statement of this fragment can raise in Python. -/
inductive PyError where
  /-- `ImportError`: the imported module is not installed. -/
  | importError (module : String)
  /-- `KeyError`: assignment to an rc parameter key matplotlib does not accept. -/
  | keyError (key : String)
  /-- `NameError`: use of an unbound name. -/
  | nameError (name : String)
  /-- `AttributeError`: attribute access on an object that lacks it. -/
  | attributeError (name : String)
  /-- `FileNotFoundError`: read of a missing file. -/
  | fileNotFoundError (path : String)
deriving DecidableEq, Repr

/-- Simple statements of the IPython fragment the configuration cell is
written in. -/
inductive Stmt where
  /-- `%config InlineBackend.figure_formats = [...]`. -/
  | configFigureFormats (formats : List String)
  /-- `import module as name`. -/
  | importModule (module asName : String)
  /-- `from module import member`. -/
  | importFrom (module member : String)
  /-- `plt.rcParams[key] = value`. -/
  | setRcParam (key value : String)
  /-- `NAME = n`, an integer constant binding such as `DPI = 800`. -/
  | assignInt (name : String) (value : ℤ)
  /-- `%matplotlib backend`, e.g. `%matplotlib inline`. -/
  | matplotlibMagic (backend : String)
  /-- `print(text)` — writes to stdout (unused by the cell). -/
  | printStmt (text : String)
  /-- `name = open(path).read()` — reads a file (unused by the cell). -/
  | readFileInto (name path : String)
  /-- `open(path, 'w').write(content)` — writes a file (unused by the cell). -/
  | writeFile (path content : String)
deriving DecidableEq, Repr

/-- The statements of the configuration cell, in source order (blank lines in
the cell separate statements and are not statements themselves). -/
def configCellStmts : List Stmt :=
  [ .configFigureFormats ["svg"],
    .importModule "pandas" "pd",
    .importModule "numpy" "np",
    .importModule "matplotlib.pyplot" "plt",
    .importFrom "matplotlib.image" "imread",
    .importModule "seaborn" "sns",
    .setRcParam "font.family" "Latin Modern Roman",
    .assignInt "DPI" 800,
    .matplotlibMagic "inline" ]

/-- Update an association list at a key, Python-dict style: replace the first
binding of the key in place, or append a new binding at the end. -/
def setAssoc {α : Type} : List (String × α) → String → α → List (String × α)
  | [], k, v => [(k, v)]
  | (k', v') :: rest, k, v =>
      if k' = k then (k, v) :: rest else (k', v') :: setAssoc rest k v

/-- Look up the first binding of a key in an association list. -/
def lookupAssoc {α : Type} : List (String × α) → String → Option α
  | [], _ => none
  | (k', v') :: rest, k => if k' = k then some v' else lookupAssoc rest k

/-- Record a module as imported (`sys.modules` keeps one entry per module). -/
def addModule (l : List String) (m : String) : List String :=
  if l.contains m then l else l ++ [m]

/-- The modules importable in the notebook's kernel environment.  The
environment itself is not under `src/`; this list is evidenced by the cell's
successful execution (`execution_count: 17`) recorded in the notebook. -/
def installedModules : List String :=
  ["pandas", "numpy", "matplotlib", "matplotlib.pyplot", "matplotlib.image", "seaborn"]

/-- The rc parameter keys matplotlib's `rcParams` accepts (assignment to any
other key raises `KeyError`).  Only the fragment relevant to this notebook is
listed; it contains the one key the cell uses, `font.family`. -/
def validRcParamKeys : List String :=
  ["font.family", "font.size", "figure.dpi", "figure.figsize",
    "axes.titlesize", "lines.linewidth"]

/-- Everything outside the kernel's display/namespace configuration: the file
system and the standard streams.  The configuration cell never touches it. -/
structure World where
  files : List (String × String)
  stdoutLines : List String
deriving DecidableEq, Repr

/-- The display-configuration state of the notebook kernel: inline-backend
figure formats, matplotlib `rcParams`, the active `%matplotlib` backend, the
interactive namespace and the set of imported modules. -/
structure DisplayConfig where
  figureFormats : List String
  rcParams : List (String × String)
  backend : Option String
  globals : List (String × PyValue)
  importedModules : List String
deriving DecidableEq, Repr

/-- The full interpreter state: display configuration plus outside world. -/
structure KernelState where
  config : DisplayConfig
  world : World
deriving DecidableEq, Repr

/-- One step of the interpreter.  Imports fail when the module is not
installed; `plt.rcParams[...] = ...` fails when `plt` is unbound, bound to a
non-module, or the key is not an accepted rc parameter; file reads fail when
the file is absent.  All other statements always succeed. -/
def execStmt (st : KernelState) : Stmt → Except PyError KernelState
  | .configFigureFormats formats =>
      .ok { st with config := { st.config with figureFormats := formats } }
  | .importModule m a =>
      if installedModules.contains m then
        .ok { st with config :=
          { st.config with
              importedModules := addModule st.config.importedModules m,
              globals := setAssoc st.config.globals a (.moduleVal m) } }
      else .error (.importError m)
  | .importFrom m member =>
      if installedModules.contains m then
        .ok { st with config :=
          { st.config with
              importedModules := addModule st.config.importedModules m,
              globals := setAssoc st.config.globals member
                (.moduleVal (m ++ "." ++ member)) } }
      else .error (.importError m)
  | .setRcParam key value =>
      match lookupAssoc st.config.globals "plt" with
      | none => .error (.nameError "plt")
      | some v =>
          if v = PyValue.moduleVal "matplotlib.pyplot" then
            if validRcParamKeys.contains key then
              .ok { st with config :=
                { st.config with rcParams := setAssoc st.config.rcParams key value } }
            else .error (.keyError key)
          else .error (.attributeError "plt")
  | .assignInt n v =>
      .ok { st with config :=
        { st.config with globals := setAssoc st.config.globals n (.intVal v) } }
  | .matplotlibMagic b =>
      if installedModules.contains "matplotlib" then
        .ok { st with config := { st.config with backend := some b } }
      else .error (.importError "matplotlib")
  | .printStmt text =>
      .ok { st with world := { st.world with stdoutLines := st.world.stdoutLines ++ [text] } }
  | .readFileInto n path =>
      match lookupAssoc st.world.files path with
      | some content =>
          .ok { st with config :=
            { st.config with globals := setAssoc st.config.globals n (.strVal content) } }
      | none => .error (.fileNotFoundError path)
  | .writeFile path content =>
      .ok { st with world := { st.world with files := setAssoc st.world.files path content } }

/-- Run a list of statements in order, stopping at the first error. -/
def runCell : List Stmt → KernelState → Except PyError KernelState
  | [], st => .ok st
  | s :: rest, st =>
      match execStmt st s with
      | .ok st' => runCell rest st'
      | .error e => .error e

/-- The effect of the configuration cell on the display configuration, written
out explicitly: the updates of its nine statements composed in source order. -/
def configUpdate (c : DisplayConfig) : DisplayConfig :=
  { figureFormats := ["svg"],
    rcParams := setAssoc c.rcParams "font.family" "Latin Modern Roman",
    backend := some "inline",
    globals :=
      setAssoc (setAssoc (setAssoc (setAssoc (setAssoc (setAssoc c.globals
        "pd" (.moduleVal "pandas"))
        "np" (.moduleVal "numpy"))
        "plt" (.moduleVal "matplotlib.pyplot"))
        "imread" (.moduleVal "matplotlib.image.imread"))
        "sns" (.moduleVal "seaborn"))
        "DPI" (.intVal 800),
    importedModules :=
      addModule (addModule (addModule (addModule (addModule c.importedModules
        "pandas") "numpy") "matplotlib.pyplot") "matplotlib.image") "seaborn" }

/-! ## Statement classification (for the documentation-consistency claims)

`isDisplayConfigStmt` is modelled from the spec claim's own words — "a
display/rendering configuration (figure format, font, inline backend)" — to be
compared with the cell as embedded from the source. -/

/-- Modelled from the spec: a statement is a display/rendering configuration
when it sets the inline figure format, an rc parameter (the font), or the
matplotlib backend. -/
def isDisplayConfigStmt : Stmt → Bool
  | .configFigureFormats _ => true
  | .setRcParam _ _ => true
  | .matplotlibMagic _ => true
  | _ => false

/-- A statement is an import when it is `import ... as ...` or
`from ... import ...`. -/
def isImportStmt : Stmt → Bool
  | .importModule _ _ => true
  | .importFrom _ _ => true
  | _ => false

/-- A statement is a plain constant binding, such as `DPI = 800`. -/
def isConstantBinding : Stmt → Bool
  | .assignInt _ _ => true
  | _ => false

/-- A statement performs IO or data processing when it prints, reads a file or
writes a file. -/
def isDataProcessingStmt : Stmt → Bool
  | .printStmt _ => true
  | .readFileInto _ _ => true
  | .writeFile _ _ => true
  | _ => false

/-! ## Physical layout of `src/report/report.ipynb`

The source file is the notebook's raw JSON.  Its ten cells are listed here
with their cell type and the number of entries of their `"source"` array. -/

/-- A notebook cell is markdown or code. -/
inductive CellType where
  | markdown
  | code
deriving DecidableEq, Repr

/-- The ten cells of `report.ipynb` with the length of each cell's `source`
array, read off the JSON: title (1), `\break` (1), the configuration cell
(14, blank lines included), and the markdown body cells. -/
def notebookCells : List (CellType × ℕ) :=
  [ (.markdown, 1), (.markdown, 1), (.code, 14), (.markdown, 62), (.markdown, 1),
    (.markdown, 35), (.markdown, 1), (.markdown, 23), (.markdown, 12), (.markdown, 3) ]

/-- Physical JSON lines of one cell in the file's pretty-printed layout: a
markdown cell spans `{`, `"cell_type"`, `"metadata"`, `"source": [`, its
source entries, `]` and `}` — 6 lines plus the entries; a code cell has two
further lines, `"execution_count"` and `"outputs"`. -/
def cellJsonLines : CellType × ℕ → ℕ
  | (.markdown, n) => 6 + n
  | (.code, n) => 8 + n

/-- Physical line count of `src/report/report.ipynb`: 2 header lines (`{` and
`"cells": [`), the cells, and 23 trailer lines (`],` followed by the notebook
`metadata` block, `nbformat`, `nbformat_minor` and the closing `}`; the final
line is not newline-terminated but is a line of the file). -/
def reportPhysicalLines : ℕ :=
  2 + (notebookCells.map cellJsonLines).sum + 23

end MLReport

namespace MLReport

/-! ## Theorems for the numeric-table claims -/

/-- **C1.** The overall F1 score of the general results table (80.23%) is the
harmonic mean `2PR/(P+R)` of the reported precision (78.03%) and recall
(82.56%), computed in exact rational arithmetic and rounded to two decimals. -/
theorem general_f1_is_harmonic_mean :
    roundTo2 (f1Formula generalPrecision generalRecall) = generalF1 := by
  norm_num [roundTo2, ratFloor, f1Formula, generalPrecision, generalRecall, generalF1]

/-- **C8.** In every row of the detailed metrics table, the reported F1-Score
is the harmonic mean of that row's Precision and Recall, computed exactly and
rounded to two decimals. -/
theorem detail_f1_is_harmonic_mean :
    ∀ r ∈ detailRows, roundTo2 (f1Formula r.precision r.recallVal) = r.f1 := by
  intro r hr
  simp only [detailRows, List.mem_cons, List.not_mem_nil, or_false] at hr
  rcases hr with rfl | rfl | rfl | rfl <;>
    norm_num [roundTo2, ratFloor, f1Formula, locRow, miscRow, orgRow, perRow]

/-- Witness for C8: the LOC row is in the table and its F1 0.88 is the rounded
harmonic mean of 0.85 and 0.91. -/
theorem detail_f1_is_harmonic_mean_witness :
    roundTo2 (f1Formula locRow.precision locRow.recallVal) = locRow.f1 :=
  detail_f1_is_harmonic_mean locRow (by simp [detailRows])

/-- **C9.** ORG is the strictly worst class of the detailed table: its
precision is 0.59 and its F1 is 0.63, and every other row has strictly larger
precision and strictly larger F1, as the Discussion section asserts. -/
theorem org_strictly_lowest (r : DetailRow) (hr : r ∈ detailRows)
    (hne : r.className ≠ "ORG") :
    orgRow.precision = 59/100 ∧ orgRow.f1 = 63/100 ∧
      orgRow.precision < r.precision ∧ orgRow.f1 < r.f1 := by
  simp only [detailRows, List.mem_cons, List.not_mem_nil, or_false] at hr
  rcases hr with rfl | rfl | rfl | rfl
  · exact ⟨by norm_num [orgRow], by norm_num [orgRow], by norm_num [orgRow, locRow],
      by norm_num [orgRow, locRow]⟩
  · exact ⟨by norm_num [orgRow], by norm_num [orgRow], by norm_num [orgRow, miscRow],
      by norm_num [orgRow, miscRow]⟩
  · exact absurd rfl hne
  · exact ⟨by norm_num [orgRow], by norm_num [orgRow], by norm_num [orgRow, perRow],
      by norm_num [orgRow, perRow]⟩

/-- Witness for C9 at the LOC row. -/
theorem org_strictly_lowest_witness :
    orgRow.precision = 59/100 ∧ orgRow.f1 = 63/100 ∧
      orgRow.precision < locRow.precision ∧ orgRow.f1 < locRow.f1 :=
  org_strictly_lowest locRow (by simp [detailRows]) (by decide)

/-- **C6.** The report enumerates exactly nine NER labels; each is `O` or a
`B-`/`I-` prefix on one of the categories PER, LOC, ORG, MISC; and for every
category both the `B-` and the `I-` variant occur in the list. -/
theorem ner_labels_are_bio :
    nerLabels.length = 9 ∧
      nerLabels.all isBioLabel = true ∧
      entityCategories.all
        (fun c => nerLabels.contains ("B-" ++ c) && nerLabels.contains ("I-" ++ c)) = true := by
  refine ⟨rfl, ?_, ?_⟩ <;> decide

/-- **C7.** Every image link target in the document is a relative path under
`images/`: it starts with `images/`, and is neither an absolute path (leading
`/`) nor a URL (leading `http`). -/
theorem image_refs_relative :
    imageRefTargets.all
      (fun p => hasPrefixStr "images/" p
        && !(hasPrefixStr "/" p) && !(hasPrefixStr "http" p)) = true := by
  decide

/-! ## Association-list and module-list lemmas -/

@[simp]
theorem lookupAssoc_setAssoc_self {α : Type} (l : List (String × α)) (k : String) (v : α) :
    lookupAssoc (setAssoc l k v) k = some v := by
  induction l with
  | nil => simp [setAssoc, lookupAssoc]
  | cons hd tl ih =>
      obtain ⟨k', v'⟩ := hd
      by_cases h : k' = k
      · simp [setAssoc, lookupAssoc, h]
      · simp [setAssoc, lookupAssoc, h, ih]

@[simp]
theorem lookupAssoc_setAssoc_ne {α : Type} {k k' : String} (h : k' ≠ k)
    (l : List (String × α)) (v : α) :
    lookupAssoc (setAssoc l k' v) k = lookupAssoc l k := by
  induction l with
  | nil => simp [setAssoc, lookupAssoc, h]
  | cons hd tl ih =>
      obtain ⟨k'', v''⟩ := hd
      by_cases h' : k'' = k'
      · subst h'
        simp [setAssoc, lookupAssoc, h]
      · simp only [setAssoc, if_neg h']
        by_cases h'' : k'' = k
        · simp [lookupAssoc, h'']
        · simp [lookupAssoc, h'', ih]

@[simp]
theorem setAssoc_setAssoc_self {α : Type} (l : List (String × α)) (k : String) (v v' : α) :
    setAssoc (setAssoc l k v) k v' = setAssoc l k v' := by
  induction l with
  | nil => simp [setAssoc]
  | cons hd tl ih =>
      obtain ⟨k'', v''⟩ := hd
      by_cases h : k'' = k
      · simp [setAssoc, h]
      · simp [setAssoc, h, ih]

theorem setAssoc_of_lookup_eq {α : Type} {l : List (String × α)} {k : String} {v : α}
    (h : lookupAssoc l k = some v) : setAssoc l k v = l := by
  induction l with
  | nil => simp [lookupAssoc] at h
  | cons hd tl ih =>
      obtain ⟨k', v'⟩ := hd
      by_cases h' : k' = k
      · subst h'
        have hv : v' = v := by simpa [lookupAssoc] using h
        subst hv
        simp [setAssoc]
      · have h'' : lookupAssoc tl k = some v := by simpa [lookupAssoc, h'] using h
        simp [setAssoc, h', ih h'']

@[simp]
theorem mem_addModule {l : List String} {m m' : String} :
    m ∈ addModule l m' ↔ m ∈ l ∨ m = m' := by
  unfold addModule
  by_cases h : l.contains m'
  · rw [if_pos h]
    have hm : m' ∈ l := by simpa using h
    constructor
    · exact Or.inl
    · rintro (h' | rfl)
      · exact h'
      · exact hm
  · rw [if_neg h]
    simp

theorem addModule_of_mem {l : List String} {m : String}
    (h : m ∈ l) : addModule l m = l := by
  simp [addModule, h]

/-! ## The behaviour of the configuration cell -/

/-- Running the configuration cell from any kernel state succeeds and performs
exactly the display-configuration update `configUpdate`, leaving the world
untouched. -/
theorem runCell_configCell (st : KernelState) :
    runCell configCellStmts st = .ok ⟨configUpdate st.config, st.world⟩ := by
  obtain ⟨⟨ff, rc, bk, gs, im⟩, w⟩ := st
  set_option maxHeartbeats 2000000 in
  simp [runCell, configCellStmts, execStmt, installedModules, validRcParamKeys,
    configUpdate]

/-- The display-configuration update of the cell is idempotent. -/
theorem configUpdate_idem (c : DisplayConfig) :
    configUpdate (configUpdate c) = configUpdate c := by
  simp only [configUpdate, DisplayConfig.mk.injEq, setAssoc_setAssoc_self,
    eq_self_iff_true, true_and]
  constructor
  · rw [setAssoc_of_lookup_eq (v := PyValue.moduleVal "pandas") (by simp),
      setAssoc_of_lookup_eq (v := PyValue.moduleVal "numpy") (by simp),
      setAssoc_of_lookup_eq (v := PyValue.moduleVal "matplotlib.pyplot") (by simp),
      setAssoc_of_lookup_eq (v := PyValue.moduleVal "matplotlib.image.imread") (by simp),
      setAssoc_of_lookup_eq (v := PyValue.moduleVal "seaborn") (by simp),
      setAssoc_of_lookup_eq (v := PyValue.intVal 800) (by simp)]
  · rw [addModule_of_mem (by simp), addModule_of_mem (by simp),
      addModule_of_mem (by simp), addModule_of_mem (by simp),
      addModule_of_mem (by simp)]

/-- **C3.** No code path of the repository can fail at runtime: evaluating the
embedded configuration cell succeeds from every initial kernel state — the
interpreter's error branches (missing module, invalid rc key, unbound `plt`,
missing file) are all unreachable for this cell. -/
theorem config_cell_never_raises (st : KernelState) :
    ∃ st', runCell configCellStmts st = .ok st' :=
  ⟨⟨configUpdate st.config, st.world⟩, runCell_configCell st⟩

/-- **C4.** The cell consumes no runtime input and produces no output: from
any display configuration `c` and any world `w`, execution succeeds, the world
(files, streams) is returned unchanged, and the resulting configuration
`configUpdate c` does not depend on `w` — so nothing is read from files or
streams and nothing outside the display-configuration state is changed. -/
theorem config_cell_frame (c : DisplayConfig) (w : World) :
    runCell configCellStmts ⟨c, w⟩ = .ok ⟨configUpdate c, w⟩ :=
  runCell_configCell ⟨c, w⟩

/-- **C10.** The configuration cell is idempotent: running it a second time
from the state the first run produced yields exactly the same state, for every
initial kernel state. -/
theorem config_cell_idempotent (st : KernelState) :
    (runCell configCellStmts st).bind (runCell configCellStmts) =
      runCell configCellStmts st := by
  rw [runCell_configCell st]
  have hb : (Except.ok ⟨configUpdate st.config, st.world⟩ :
        Except PyError KernelState).bind (runCell configCellStmts) =
      runCell configCellStmts ⟨configUpdate st.config, st.world⟩ := rfl
  rw [hb, runCell_configCell ⟨configUpdate st.config, st.world⟩]
  simp [configUpdate_idem]

/-- **C2, counterexample.** Not every statement of the configuration cell is a
display/rendering configuration: the cell's second statement is
`import pandas as pd`, a module import. -/
theorem config_cell_not_all_display_config :
    configCellStmts.all isDisplayConfigStmt = false ∧
      configCellStmts.get? 1 = some (Stmt.importModule "pandas" "pd") ∧
      isDisplayConfigStmt (Stmt.importModule "pandas" "pd") = false := by
  refine ⟨?_, rfl, rfl⟩
  decide

/-- **C2, amended.** Every statement of the configuration cell is a
display/rendering configuration (figure format, font, inline backend), a
module import, or the constant binding `DPI = 800`; and the cell performs no
IO and no data processing (its statement list is straight-line, drawn from a
grammar with no compound statement, so it also has no control flow). -/
theorem config_cell_only_setup_statements :
    (configCellStmts.all fun s =>
        isDisplayConfigStmt s || isImportStmt s || isConstantBinding s) = true ∧
      (configCellStmts.all fun s => !(isDataProcessingStmt s)) = true := by
  refine ⟨?_, ?_⟩ <;> decide

/-- **C5, counterexample.** The source file `src/report/report.ipynb` has 240
physical lines, not 241. -/
theorem report_line_count_is_240 :
    reportPhysicalLines = 240 ∧ reportPhysicalLines ≠ 241 := by
  refine ⟨?_, ?_⟩ <;> decide

/-- **C5, amended.** The repository's sole source file totals 240 physical
lines; every cell except the single 14-line configuration code cell is
markdown (narrative and LaTeX-style formulas), and no statement of the
configuration cell is systems logic (IO or data processing). -/
theorem report_only_markdown_and_config :
    reportPhysicalLines = 240 ∧
      (notebookCells.filter fun cell => decide (cell.1 = CellType.code)).length = 1 ∧
      notebookCells.contains (CellType.code, 14) = true ∧
      (notebookCells.all fun cell =>
        decide (cell.1 = CellType.markdown) || decide (cell = (CellType.code, 14))) = true ∧
      (configCellStmts.all fun s => !(isDataProcessingStmt s)) = true := by
  refine ⟨?_, ?_, ?_, ?_, ?_⟩ <;> decide

end MLReport
